import Mathlib

/-!
Shallow embedding of the solomon-church-bot core (src/db.py, src/handlers/*)
and proofs of the frozen claims about it.

The relational store is modelled as lists of rows; each SQL statement of
`db.py` becomes a pure function on the store state.  An `UPDATE ... WHERE p`
maps the update over every row satisfying `p` (the schema's PRIMARY KEY /
UNIQUE constraints guarantee at most one row matches in the real database,
so this coincides with the single-row semantics); `RETURNING *` fetched with
`fetchrow` becomes `find?` of the matched row.  Telegram message sending is
modelled by a failure predicate on recipient ids; conversation handlers
(python-telegram-bot `ConversationHandler` callbacks) become functions from
the incoming text / callback data and the per-user scratch storage
(`context.user_data`) to the next conversation state.
-/

namespace Solomon

/-- models.UserRole -/
inductive UserRole
  | user
  | admin
  | super_admin
deriving DecidableEq, Repr

/-- models.EventStatus -/
inductive EventStatus
  | draft
  | pending
  | active
  | archived
deriving DecidableEq, Repr

/-- models.RequestStatus -/
inductive RequestStatus
  | pending
  | approved
  | rejected
deriving DecidableEq, Repr

/-- A calendar date, the result of a successful `date.fromisoformat`. -/
structure Date where
  year : Nat
  month : Nat
  day : Nat
deriving DecidableEq, Repr

/-- A row of the `users` table. -/
structure User where
  telegram_id : Nat
  username : Option String
  full_name : String
  phone : Option String
  role : UserRole
deriving DecidableEq, Repr

/-- A row of the `events` table. -/
structure Event where
  id : Nat
  title : String
  type : Option String
  date_start : Date
  date_end : Option Date
  time : Option String
  place : Option String
  description : Option String
  max_participants : Int
  status : EventStatus
  created_by : Option String
deriving DecidableEq, Repr

/-- A row of the `event_registrations` table. -/
structure EventRegistration where
  id : Nat
  event_id : Nat
  username : Option String
  telegram_id : Option Nat
  full_name : String
  phone : Option String
  level : Option String
  comment : Option String
deriving DecidableEq, Repr

/-- The JSON payload attached to an admin request (`payload_json`); the
fields actually read by the code are `event_id`, `event_title`, `message`
and `scope`. -/
structure Payload where
  event_id : Option Nat
  event_title : Option String
  message : Option String
  scope : Option String
deriving DecidableEq, Repr

/-- A row of the `admin_requests` table. -/
structure AdminRequest where
  id : Nat
  username : String
  request_type : String
  telegram_id : Option Nat
  full_name : Option String
  phone : Option String
  requested_table : Option String
  payload_json : Option Payload
  comment : Option String
  status : RequestStatus
  reviewed_by : Option String
deriving DecidableEq, Repr

/-- The database state: one list of rows per table touched by the claims,
plus the SERIAL counters for fresh ids. -/
structure DBState where
  users : List User
  events : List Event
  registrations : List EventRegistration
  requests : List AdminRequest
  table_access : List (String × String)
  next_event_id : Nat
  next_registration_id : Nat
  next_request_id : Nat
deriving DecidableEq, Repr

/-! ## db.py — users -/

/-- db.get_user: `SELECT * FROM users WHERE telegram_id = $1`. -/
def get_user (telegram_id : Nat) (s : DBState) : Option User :=
  s.users.find? (fun v => v.telegram_id == telegram_id)

/-- The `DO UPDATE SET` clause of db.upsert_user:
`username = COALESCE(EXCLUDED.username, users.username), full_name = EXCLUDED.full_name`. -/
def upsert_upd (username : Option String) (full_name : String) (u : User) : User :=
  { u with
    username := match username with
      | some v => some v
      | none => u.username
    full_name := full_name }

/-- db.upsert_user: `INSERT INTO users ... ON CONFLICT (telegram_id) DO UPDATE ...
RETURNING *`.  On conflict the stored phone and role are untouched. -/
def upsert_user (telegram_id : Nat) (username : Option String) (full_name : String)
    (phone : Option String) (s : DBState) : User × DBState :=
  match s.users.find? (fun v => v.telegram_id == telegram_id) with
  | some u =>
      (upsert_upd username full_name u,
       { s with users := s.users.map (fun v =>
           if v.telegram_id == telegram_id then upsert_upd username full_name v else v) })
  | none =>
      let u : User :=
        { telegram_id := telegram_id
          username := username
          full_name := full_name
          phone := phone
          role := .user }
      (u, { s with users := s.users ++ [u] })

/-- db.set_user_role: `UPDATE users SET role = $1 WHERE username = $2`; the
Bool is `tag == "UPDATE 1"`. -/
def set_user_role (username : String) (role : UserRole) (s : DBState) : Bool × DBState :=
  ((s.users.filter (fun u => u.username == some username)).length == 1,
   { s with users := s.users.map (fun u =>
       if u.username == some username then { u with role := role } else u) })

/-- db.get_all_telegram_ids: `SELECT telegram_id FROM users`. -/
def get_all_telegram_ids (s : DBState) : List Nat :=
  s.users.map (fun u => u.telegram_id)

/-! ## db.py — events -/

/-- db.create_event: `INSERT INTO events (...) VALUES (...) RETURNING *`. -/
def create_event (title : String) (date_start : Date) (type : Option String)
    (date_end : Option Date) (time : Option String) (place : Option String)
    (description : Option String) (max_participants : Int)
    (status : EventStatus) (created_by : Option String)
    (s : DBState) : Event × DBState :=
  let e : Event :=
    { id := s.next_event_id
      title := title
      type := type
      date_start := date_start
      date_end := date_end
      time := time
      place := place
      description := description
      max_participants := max_participants
      status := status
      created_by := created_by }
  (e, { s with events := s.events ++ [e], next_event_id := s.next_event_id + 1 })

/-- db.get_event: `SELECT * FROM events WHERE id = $1`. -/
def get_event (event_id : Nat) (s : DBState) : Option Event :=
  s.events.find? (fun e => e.id == event_id)

/-- db.update_event specialised to the one field the handlers ever pass,
`status` (db.activate_event / db.archive_event):
`UPDATE events SET status = $1 WHERE id = $2 RETURNING *`. -/
def update_event_status (event_id : Nat) (st : EventStatus) (s : DBState) :
    Option Event × DBState :=
  match s.events.find? (fun e => e.id == event_id) with
  | some e =>
      (some { e with status := st },
       { s with events := s.events.map (fun v =>
           if v.id == event_id then { v with status := st } else v) })
  | none => (none, s)

/-- db.activate_event: `update_event(event_id, status='active')`. -/
def activate_event (event_id : Nat) (s : DBState) : Option Event × DBState :=
  update_event_status event_id .active s

/-! ## db.py — event registrations -/

/-- The conflict target of db.register_for_event, `UNIQUE (event_id,
telegram_id)`; a NULL telegram_id never conflicts. -/
def regConflict (event_id : Nat) (telegram_id : Option Nat)
    (r : EventRegistration) : Bool :=
  r.event_id == event_id &&
    match telegram_id, r.telegram_id with
    | some a, some b => a == b
    | _, _ => false

/-- The `DO UPDATE SET` clause of db.register_for_event: full_name, phone,
level and comment are overwritten; username and telegram_id are not. -/
def reg_upd (full_name : String) (phone level comment : Option String)
    (r : EventRegistration) : EventRegistration :=
  { r with full_name := full_name, phone := phone, level := level, comment := comment }

/-- db.register_for_event: `INSERT INTO event_registrations ...
ON CONFLICT (event_id, telegram_id) DO UPDATE ... RETURNING *`. -/
def register_for_event (event_id : Nat) (full_name : String)
    (username : Option String) (telegram_id : Option Nat)
    (phone : Option String) (level : Option String) (comment : Option String)
    (s : DBState) : EventRegistration × DBState :=
  match s.registrations.find? (regConflict event_id telegram_id) with
  | some r =>
      (reg_upd full_name phone level comment r,
       { s with registrations := s.registrations.map (fun v =>
           if regConflict event_id telegram_id v
           then reg_upd full_name phone level comment v else v) })
  | none =>
      let r : EventRegistration :=
        { id := s.next_registration_id
          event_id := event_id
          username := username
          telegram_id := telegram_id
          full_name := full_name
          phone := phone
          level := level
          comment := comment }
      (r, { s with
              registrations := s.registrations ++ [r]
              next_registration_id := s.next_registration_id + 1 })

/-- db.count_event_registrations:
`SELECT count(*) FROM event_registrations WHERE event_id = $1`. -/
def count_event_registrations (event_id : Nat) (s : DBState) : Nat :=
  (s.registrations.filter (fun r => r.event_id == event_id)).length

/-! ## db.py — admin requests -/

/-- db.create_admin_request: `INSERT INTO admin_requests (...) RETURNING *`;
status defaults to 'pending'. -/
def create_admin_request (username : String) (request_type : String)
    (telegram_id : Option Nat) (full_name : Option String) (phone : Option String)
    (requested_table : Option String) (payload_json : Option Payload)
    (comment : Option String) (s : DBState) : AdminRequest × DBState :=
  let r : AdminRequest :=
    { id := s.next_request_id
      username := username
      request_type := request_type
      telegram_id := telegram_id
      full_name := full_name
      phone := phone
      requested_table := requested_table
      payload_json := payload_json
      comment := comment
      status := .pending
      reviewed_by := none }
  (r, { s with
          requests := s.requests ++ [r]
          next_request_id := s.next_request_id + 1 })

/-- The WHERE clause shared by db.approve_request and db.reject_request:
`WHERE id = $2 AND status = 'pending'`. -/
def req_pending_where (request_id : Nat) (r : AdminRequest) : Bool :=
  r.id == request_id && r.status == RequestStatus.pending

/-- The SET clause shared by db.approve_request and db.reject_request:
`SET status = <outcome>, reviewed_by = $1, reviewed_at = now()`. -/
def req_decide_upd (outcome : RequestStatus) (reviewed_by : String)
    (r : AdminRequest) : AdminRequest :=
  { r with status := outcome, reviewed_by := some reviewed_by }

/-- The conditional update shared by db.approve_request and db.reject_request:
`UPDATE admin_requests SET ... WHERE id = $2 AND status = 'pending'
RETURNING *` fetched with fetchrow (None when no row matched). -/
def decide_request (outcome : RequestStatus) (request_id : Nat)
    (reviewed_by : String) (s : DBState) : Option AdminRequest × DBState :=
  match s.requests.find? (req_pending_where request_id) with
  | some r =>
      (some (req_decide_upd outcome reviewed_by r),
       { s with requests := s.requests.map (fun v =>
           if req_pending_where request_id v
           then req_decide_upd outcome reviewed_by v else v) })
  | none => (none, s)

/-- db.approve_request. -/
def approve_request (request_id : Nat) (reviewed_by : String) (s : DBState) :
    Option AdminRequest × DBState :=
  decide_request .approved request_id reviewed_by s

/-- db.reject_request. -/
def reject_request (request_id : Nat) (reviewed_by : String) (s : DBState) :
    Option AdminRequest × DBState :=
  decide_request .rejected request_id reviewed_by s

/-- Status of the request with the given id, read back from the store. -/
def request_status (request_id : Nat) (s : DBState) : Option RequestStatus :=
  (s.requests.find? (fun r => r.id == request_id)).map (fun r => r.status)

/-! ## db.py — admin table access -/

/-- db.grant_table_access: `INSERT INTO admin_table_access (username,
table_name) VALUES ($1, $2) ON CONFLICT DO NOTHING`. -/
def grant_table_access (username table_name : String) (s : DBState) : DBState :=
  if s.table_access.any (fun p => p.1 == username && p.2 == table_name) then s
  else { s with table_access := s.table_access ++ [(username, table_name)] }

/-! ## Input parsing (datetime.date.fromisoformat, int) -/

/-- Gregorian leap year. -/
def isLeap (y : Nat) : Bool :=
  (y % 4 == 0 && y % 100 != 0) || y % 400 == 0

/-- Days in a month of the Gregorian calendar. -/
def daysInMonth (y m : Nat) : Nat :=
  if m == 2 then (if isLeap y then 29 else 28)
  else if m == 4 || m == 6 || m == 9 || m == 11 then 30
  else 31

/-- All characters are ASCII digits. -/
def allDigits (cs : List Char) : Bool :=
  cs.all (fun c => c.isDigit)

/-- ASCII whitespace. -/
def isSpaceChar (c : Char) : Bool :=
  c == ' ' || c == '\t' || c == '\n' || c == '\r'

/-- Python `str.strip()`: drop leading and trailing whitespace. -/
def pystrip (s : String) : String :=
  String.mk (((s.toList.dropWhile isSpaceChar).reverse.dropWhile isSpaceChar).reverse)

/-- Decimal value of a digit string. -/
def digitsToNat (cs : List Char) : Nat :=
  cs.foldl (fun a c => a * 10 + (c.toNat - 48)) 0

/-- datetime.date.fromisoformat: accepts exactly `YYYY-MM-DD` naming a valid
calendar date, raising ValueError (here: `none`) otherwise. -/
def date_fromisoformat (text : String) : Option Date :=
  match text.toList with
  | [y1, y2, y3, y4, '-', m1, m2, '-', d1, d2] =>
      if allDigits [y1, y2, y3, y4] && allDigits [m1, m2] && allDigits [d1, d2] then
        let y := digitsToNat [y1, y2, y3, y4]
        let m := digitsToNat [m1, m2]
        let d := digitsToNat [d1, d2]
        if 1 ≤ y && 1 ≤ m && m ≤ 12 && 1 ≤ d && d ≤ daysInMonth y m then
          some { year := y, month := m, day := d }
        else none
      else none
  | _ => none

/-- Python `int(text)` on an already-stripped string: an optional sign
followed by decimal digits; anything else raises ValueError (here: `none`).
(Underscore digit separators are not modelled.) -/
def pyint (text : String) : Option Int :=
  match text.toList with
  | '-' :: rest =>
      if !rest.isEmpty && allDigits rest then some (-(digitsToNat rest : Int)) else none
  | '+' :: rest =>
      if !rest.isEmpty && allDigits rest then some ((digitsToNat rest : Int)) else none
  | l =>
      if !l.isEmpty && allDigits l then some ((digitsToNat l : Int)) else none

/-! ## handlers/registration.py — event sign-up conversation

`context.user_data` is modelled by `UserData`: `none` means the key is
absent; for the keys that may store Python `None` (`reg_phone`, `reg_level`)
the stored value is itself an `Option`. -/

/-- The registration conversation states ASK_NAME..CONFIRM plus
ConversationHandler.END. -/
inductive RegState
  | askName
  | askPhone
  | askLevel
  | confirm
  | ended
deriving DecidableEq, Repr

/-- The user-visible outcome of the reg_start entry point. -/
inductive RegReply
  | notFound
  | capacityRejected (title : String)
  | askNamePrompt (title : String)
deriving DecidableEq, Repr

/-- The registration-flow keys of `context.user_data`. -/
structure UserData where
  reg_event_id : Option Nat
  reg_event_title : Option String
  reg_name : Option String
  reg_phone : Option (Option String)
  reg_level : Option (Option String)
deriving DecidableEq, Repr

/-- An empty `context.user_data`. -/
def UserData.empty : UserData :=
  { reg_event_id := none, reg_event_title := none, reg_name := none,
    reg_phone := none, reg_level := none }

/-- registration.reg_start: entry point on the `reg_start:<event_id>`
button.  Rejects when the event is missing, or when `max_participants > 0`
and the registration count has reached it; otherwise stores the event id and
title, pre-fills the name from the stored identity when one exists, and
moves to ASK_NAME. -/
def reg_start (actor_tid event_id : Nat) (s : DBState) (ud : UserData) :
    RegState × RegReply × UserData :=
  match s.events.find? (fun e => e.id == event_id) with
  | none => (.ended, .notFound, ud)
  | some event =>
      if event.max_participants > 0 ∧
          (count_event_registrations event_id s : Int) ≥ event.max_participants then
        (.ended, .capacityRejected event.title, ud)
      else
        let ud1 := { ud with
                       reg_event_id := some event_id
                       reg_event_title := some event.title }
        match get_user actor_tid s with
        | some u =>
            if u.full_name ≠ "" then
              (.askName, .askNamePrompt event.title,
               { ud1 with reg_name := some u.full_name })
            else (.askName, .askNamePrompt event.title, ud1)
        | none => (.askName, .askNamePrompt event.title, ud1)

/-- registration.ask_name: stores the name only when the stripped text is
non-empty and not `/skip`. -/
def ask_name (input : String) (ud : UserData) : RegState × UserData :=
  let text := pystrip input
  if text ≠ "" ∧ text ≠ "/skip" then (.askPhone, { ud with reg_name := some text })
  else (.askPhone, ud)

/-- registration.ask_phone: stores the phone, or an explicit `None` on
`/skip`/empty. -/
def ask_phone (input : String) (ud : UserData) : RegState × UserData :=
  let text := pystrip input
  if text ≠ "" ∧ text ≠ "/skip" then (.askLevel, { ud with reg_phone := some (some text) })
  else (.askLevel, { ud with reg_phone := some none })

/-- registration.ask_level: stores the level, or an explicit `None` on
`/skip`/empty. -/
def ask_level (input : String) (ud : UserData) : RegState × UserData :=
  let text := pystrip input
  if text ≠ "" ∧ text ≠ "/skip" then (.confirm, { ud with reg_level := some (some text) })
  else (.confirm, { ud with reg_level := some none })

/-- registration.confirm: on `reg_confirm:no` only replies; on
`reg_confirm:yes` upserts the registration keyed by the actor's telegram id.
The flow guarantees `reg_event_id` is present (set by reg_start), so the
`getD 0` default is never reached from the flow. -/
def reg_confirm (yes : Bool) (actor_tid : Nat) (actor_un : Option String)
    (actor_full_name : String) (ud : UserData) (s : DBState) : RegState × DBState :=
  if yes = false then (.ended, s)
  else
    let event_id := ud.reg_event_id.getD 0
    let name := ud.reg_name.getD actor_full_name
    (.ended,
     (register_for_event event_id name actor_un (some actor_tid)
        ud.reg_phone.join ud.reg_level.join none s).2)

/-- registration.cancel: the `/cancel` fallback replies and ends; it touches
neither the store nor `context.user_data`. -/
def reg_cancel (ud : UserData) (s : DBState) : RegState × UserData × DBState :=
  (.ended, ud, s)

/-- One full run of the registration conversation as wired by its
ConversationHandler: reg_start, then (when it reached ASK_NAME) the three
ask steps and the confirm callback. -/
def registration_flow (actor_tid : Nat) (actor_un : Option String)
    (actor_fn : String) (event_id : Nat) (name_in phone_in level_in : String)
    (yes : Bool) (ud : UserData) (s : DBState) : RegState × UserData × DBState :=
  match reg_start actor_tid event_id s ud with
  | (RegState.askName, _, ud1) =>
      let ud2 := (ask_name name_in ud1).2
      let ud3 := (ask_phone phone_in ud2).2
      let ud4 := (ask_level level_in ud3).2
      let r := reg_confirm yes actor_tid actor_un actor_fn ud4 s
      (r.1, ud4, r.2)
  | (st, _, ud1) => (st, ud1, s)

/-! ## handlers/admin.py — manual event creation conversation -/

/-- The manual event creation states EVT_TITLE..EVT_CONFIRM plus
ConversationHandler.END. -/
inductive EvtState
  | title
  | date
  | time
  | place
  | desc
  | maxPart
  | confirm
  | ended
deriving DecidableEq, Repr

/-- The event-creation keys of `context.user_data`. -/
structure EvtData where
  evt_title : Option String
  evt_date : Option Date
  evt_time : Option (Option String)
  evt_place : Option (Option String)
  evt_desc : Option (Option String)
  evt_max : Option Int
deriving DecidableEq, Repr

/-- An empty event-creation scratch state. -/
def EvtData.empty : EvtData :=
  { evt_title := none, evt_date := none, evt_time := none,
    evt_place := none, evt_desc := none, evt_max := none }

/-- admin.evt_title: stores the stripped title and asks for the date. -/
def evt_title_h (input : String) (d : EvtData) : EvtState × EvtData :=
  (.date, { d with evt_title := some (pystrip input) })

/-- admin.evt_date: on a ValueError from date.fromisoformat it re-prompts and
RETURNS EVT_DATE with nothing stored; otherwise stores the date and moves on. -/
def evt_date_h (input : String) (d : EvtData) : EvtState × EvtData :=
  match date_fromisoformat (pystrip input) with
  | none => (.date, d)
  | some dt => (.time, { d with evt_date := some dt })

/-- admin.evt_time: stores the text, or `None` on `/skip`. -/
def evt_time_h (input : String) (d : EvtData) : EvtState × EvtData :=
  let text := pystrip input
  (.place, { d with evt_time := some (if text ≠ "/skip" then some text else none) })

/-- admin.evt_place. -/
def evt_place_h (input : String) (d : EvtData) : EvtState × EvtData :=
  let text := pystrip input
  (.desc, { d with evt_place := some (if text ≠ "/skip" then some text else none) })

/-- admin.evt_desc. -/
def evt_desc_h (input : String) (d : EvtData) : EvtState × EvtData :=
  let text := pystrip input
  (.maxPart, { d with evt_desc := some (if text ≠ "/skip" then some text else none) })

/-- admin.evt_max: `/skip` stores 0; otherwise `int(text)`, falling back to 0
on ValueError.  In every case the conversation advances to EVT_CONFIRM. -/
def evt_max_h (input : String) (d : EvtData) : EvtState × EvtData :=
  let text := pystrip input
  if text = "/skip" then (.confirm, { d with evt_max := some 0 })
  else
    match pyint text with
    | some n => (.confirm, { d with evt_max := some n })
    | none => (.confirm, { d with evt_max := some 0 })

/-- The user-visible outcome of admin.evt_confirm. -/
inductive EvtReply
  | cancelled
  | createdActive (event_id : Nat) (title : String)
  | createdPending (event_id : Nat) (title : String)
deriving DecidableEq, Repr

/-- admin.evt_confirm: on `evt_confirm:no` only replies.  Otherwise creates
the event with status `pending`; a super-admin's event is immediately
activated, anyone else's spawns an `event_creation` AdminRequest whose
payload references the new event's id.  `actor` is the `db_user` cached by
the role guard. -/
def evt_confirm_h (yes : Bool) (actor : User) (d : EvtData) (s : DBState) :
    EvtReply × DBState :=
  if yes = false then (.cancelled, s)
  else
    let username := actor.username
    let er := create_event (d.evt_title.getD "") (d.evt_date.getD ⟨1970, 1, 1⟩)
      none none d.evt_time.join d.evt_place.join d.evt_desc.join
      (d.evt_max.getD 0) .pending username s
    let event := er.1
    if actor.role = UserRole.super_admin then
      (.createdActive event.id event.title, (activate_event event.id er.2).2)
    else
      let rr := create_admin_request (username.getD (toString actor.telegram_id))
        "event_creation" (some actor.telegram_id) (some actor.full_name) none none
        (some { event_id := some event.id, event_title := some event.title,
                message := none, scope := none })
        (some ("Новое мероприятие «" ++ event.title ++ "»")) er.2
      (.createdPending event.id event.title, rr.2)

/-- admin.evt_cancel: replies and ends, mutating nothing. -/
def evt_cancel_h (d : EvtData) (s : DBState) : EvtState × EvtData × DBState :=
  (.ended, d, s)

/-! ## handlers/super_admin.py — decisions, side effects, broadcast

Message delivery is modelled by a predicate `fails : Nat → Bool` saying
which recipient ids raise on `bot.send_message`. -/

/-- The two callback actions `sa:approve:<id>` / `sa:reject:<id>`. -/
inductive DecisionAction
  | approve
  | reject
deriving DecidableEq, Repr

/-- The reviewer-visible reply of handle_request_decision. -/
inductive DecisionReply
  | alreadyHandled (request_id : Nat)
  | decided (request_id : Nat) (request_type : String) (approved : Bool)
      (requester : String)
deriving DecidableEq, Repr

/-- The logger.info lines emitted by _apply_approval. -/
inductive LogEntry
  | grantedAdmin (username : String)
  | activatedEvent (event_id : Nat)
  | broadcastSent (sent total : Nat)
deriving DecidableEq, Repr

/-- The `for tid in ids: try send/sent += 1 except: pass` fan-out loop shared
by broadcast_confirm and the broadcast branch of _apply_approval.  Returns
the recipients a send was attempted for (in order) and the success count. -/
def broadcast_loop (fails : Nat → Bool) (message : String) (ids : List Nat) :
    List Nat × Nat :=
  ids.foldl (fun acc tid =>
    (acc.1 ++ [tid], if fails tid then acc.2 else acc.2 + 1)) ([], 0)

/-- super_admin._apply_approval: the per-`request_type` side effect run after
a successful approval, returning the new store state and the log lines. -/
def apply_approval (fails : Nat → Bool) (req : AdminRequest) (s : DBState) :
    DBState × List LogEntry :=
  if req.request_type = "admin_access" then
    let s1 := (set_user_role req.username .admin s).2
    let s2 := match req.requested_table with
      | some t => grant_table_access req.username t s1
      | none => s1
    (s2, [.grantedAdmin req.username])
  else if req.request_type = "event_creation" ∨ req.request_type = "event_activation" then
    match req.payload_json.bind Payload.event_id with
    | some event_id =>
        if event_id ≠ 0 then
          ((activate_event event_id s).2, [.activatedEvent event_id])
        else (s, [])
    | none => (s, [])
  else if req.request_type = "broadcast" then
    let message := (req.payload_json.bind Payload.message).getD ""
    if message ≠ "" then
      let ids := get_all_telegram_ids s
      let sent := (broadcast_loop fails message ids).2
      (s, [.broadcastSent sent ids.length])
    else (s, [])
  else (s, [])

/-- The store writes of _apply_approval, in program order, as individual
steps; an exception raised inside the side effect corresponds to executing
only a prefix of this list.  The broadcast branch performs no store write
(each send is wrapped in try/except). -/
def approval_steps (fails : Nat → Bool) (req : AdminRequest) :
    List (DBState → DBState) :=
  if req.request_type = "admin_access" then
    (fun s => (set_user_role req.username .admin s).2) ::
      (match req.requested_table with
       | some t => [fun s => grant_table_access req.username t s]
       | none => [])
  else if req.request_type = "event_creation" ∨ req.request_type = "event_activation" then
    match req.payload_json.bind Payload.event_id with
    | some event_id =>
        if event_id ≠ 0 then [fun s => (activate_event event_id s).2] else []
    | none => []
  else []

/-- Run the first `k` side-effect steps (an exception at step `k+1` leaves
exactly this state behind). -/
def run_steps (steps : List (DBState → DBState)) (k : Nat) (s : DBState) : DBState :=
  (steps.take k).foldl (fun a f => f a) s

/-- The db call handle_request_decision makes for each action:
`db.approve_request` on "approve", `db.reject_request` otherwise. -/
def decision_of (action : DecisionAction) (request_id : Nat) (reviewer : String)
    (s : DBState) : Option AdminRequest × DBState :=
  match action with
  | .approve => approve_request request_id reviewer s
  | .reject => reject_request request_id reviewer s

/-- The terminal status each action assigns. -/
def decision_status (action : DecisionAction) : RequestStatus :=
  match action with
  | .approve => .approved
  | .reject => .rejected

/-- super_admin.handle_request_decision: answers the `sa:(approve|reject)`
callback.  The conditional status update runs first; when it returns no row
the reviewer is told the request was already handled; on an approval the
side effects then run against the already-committed state. -/
def handle_request_decision (fails : Nat → Bool) (action : DecisionAction)
    (request_id : Nat) (reviewer : String) (s : DBState) :
    DecisionReply × DBState × List LogEntry :=
  match decision_of action request_id reviewer s with
  | (none, s1) => (.alreadyHandled request_id, s1, [])
  | (some req, s1) =>
      match action with
      | .approve =>
          let ar := apply_approval fails req s1
          (.decided request_id req.request_type true req.username, ar.1, ar.2)
      | .reject =>
          (.decided request_id req.request_type false req.username, s1, [])

/-- The user-visible outcome of super_admin.broadcast_confirm. -/
inductive BCReply
  | cancelled
  | report (sent total : Nat)
deriving DecidableEq, Repr

/-- super_admin.broadcast_confirm: on `bc_confirm:no` only replies; otherwise
fans the stored text out to every known telegram id and reports
`sent/total`.  The store is never written. -/
def broadcast_confirm_h (fails : Nat → Bool) (yes : Bool)
    (bc_text : Option String) (s : DBState) : BCReply :=
  if yes = false then .cancelled
  else
    let message := bc_text.getD ""
    let ids := get_all_telegram_ids s
    let sent := (broadcast_loop fails message ids).2
    .report sent ids.length

/-- The event row evt_confirm inserts: the tuple create_event receives from
`context.user_data`, with id drawn from the SERIAL counter. -/
def evt_new_event (actor : User) (d : EvtData) (s : DBState) : Event :=
  { id := s.next_event_id
    title := d.evt_title.getD ""
    type := none
    date_start := d.evt_date.getD ⟨1970, 1, 1⟩
    date_end := none
    time := d.evt_time.join
    place := d.evt_place.join
    description := d.evt_desc.join
    max_participants := d.evt_max.getD 0
    status := .pending
    created_by := actor.username }

/-- The AdminRequest row evt_confirm inserts for a non-super-admin actor. -/
def evt_new_request (actor : User) (d : EvtData) (s : DBState) : AdminRequest :=
  { id := s.next_request_id
    username := actor.username.getD (toString actor.telegram_id)
    request_type := "event_creation"
    telegram_id := some actor.telegram_id
    full_name := some actor.full_name
    phone := none
    requested_table := none
    payload_json := some { event_id := some s.next_event_id, event_title := some (d.evt_title.getD ""), message := none, scope := none }
    comment := some ("Новое мероприятие «" ++ (d.evt_title.getD "") ++ "»")
    status := .pending
    reviewed_by := none }

/-! ## Concrete stores and rows used by witnesses and counterexamples -/

/-- An empty store with all SERIAL counters at 1. -/
def emptyDB : DBState :=
  { users := [], events := [], registrations := [], requests := [],
    table_access := [], next_event_id := 1, next_registration_id := 1,
    next_request_id := 1 }

/-- A plain user row with the given telegram id and name. -/
def mkUser (tid : Nat) (fn : String) : User :=
  { telegram_id := tid, username := none, full_name := fn, phone := none,
    role := .user }

/-- A stored identity used by the C9 witness. -/
def c9U : User :=
  { telegram_id := 7, username := some "oldhandle", full_name := "Old Name",
    phone := some "123", role := .admin }

/-- A store holding `c9U`. -/
def c9S : DBState := { emptyDB with users := [c9U] }

/-- The three-recipient store of the C6 witness. -/
def c6S : DBState :=
  { emptyDB with users := [mkUser 1 "a", mkUser 2 "b", mkUser 3 "c"] }

/-- A pending broadcast request carrying the message "hi". -/
def c6Req : AdminRequest :=
  { id := 1
    username := "x"
    request_type := "broadcast"
    telegram_id := none
    full_name := none
    phone := none
    requested_table := none
    payload_json := some { event_id := none, event_title := none, message := some "hi", scope := none }
    comment := none
    status := .pending
    reviewed_by := none }

/-- A pending admin-access request with id 5, used by the C1 witness. -/
def c1Req : AdminRequest :=
  { id := 5
    username := "alice"
    request_type := "admin_access"
    telegram_id := some 7
    full_name := some "Alice"
    phone := none
    requested_table := none
    payload_json := none
    comment := none
    status := .pending
    reviewed_by := none }

/-- A store holding only the pending request `c1Req`. -/
def c1S : DBState := { emptyDB with requests := [c1Req], next_request_id := 6 }

/-- `c1Req` after a successful approval by "root". -/
def c1ReqDone : AdminRequest :=
  { c1Req with status := .approved, reviewed_by := some "root" }

/-- The store after the approval of `c1Req`. -/
def c1PostS : DBState := { c1S with requests := [c1ReqDone] }

/-- An active one-slot event used by the C3 counterexample and witness. -/
def c3Event : Event :=
  { id := 1
    title := "Yoga"
    type := none
    date_start := ⟨2025, 1, 15⟩
    date_end := none
    time := none
    place := none
    description := none
    max_participants := 1
    status := .active
    created_by := none }

/-- The existing registration holding the event's single slot. -/
def c3Reg : EventRegistration :=
  { id := 1
    event_id := 1
    username := none
    telegram_id := some 10
    full_name := "Alice"
    phone := none
    level := none
    comment := none }

/-- A store where the one-slot event is full with that registration. -/
def c3S : DBState :=
  { emptyDB with
      events := [c3Event]
      registrations := [c3Reg]
      next_event_id := 2
      next_registration_id := 2 }

/-- The same event with two slots, so it is not full. -/
def c3SRoomy : DBState :=
  { c3S with events := [{ c3Event with max_participants := 2 }] }

/-- Scratch state midway through the manual event creation flow (title and
date already stored), used by C4. -/
def c4Data : EvtData :=
  { evt_title := some "Bible School"
    evt_date := some ⟨2025, 1, 15⟩
    evt_time := none
    evt_place := none
    evt_desc := none
    evt_max := none }

/-- An event_creation request whose payload lacks the event reference,
used by C7. -/
def c7ReqNoRef : AdminRequest :=
  { id := 6
    username := "bob"
    request_type := "event_creation"
    telegram_id := some 20
    full_name := none
    phone := none
    requested_table := none
    payload_json := none
    comment := none
    status := .pending
    reviewed_by := none }

/-- An event_activation request referencing event 99, which no store below
contains. -/
def c7ReqGone : AdminRequest :=
  { c7ReqNoRef with
      id := 7
      request_type := "event_activation"
      payload_json := some { event_id := some 99, event_title := none, message := none, scope := none } }

/-- An uncapped active event used by C8. -/
def c8Event : Event := { c3Event with max_participants := 0 }

/-- A store with the uncapped event and no registered identities. -/
def c8S : DBState := { emptyDB with events := [c8Event], next_event_id := 2 }

/-- A (non-super) admin actor used by the C5 witness. -/
def c5Admin : User :=
  { telegram_id := 9, username := some "rev", full_name := "Rev",
    phone := none, role := .admin }

/-- The same actor promoted to super-admin. -/
def c5Super : User := { c5Admin with role := .super_admin }

/-! ## Helper lemmas on the row-list operations -/

/-- `find?` commutes with a map that does not change whether rows match. -/
theorem find?_map_invar {α : Type} (p : α → Bool) (f : α → α)
    (hf : ∀ v, p (f v) = p v) (l : List α) :
    (l.map f).find? p = (l.find? p).map f := by
  induction l with
  | nil => rfl
  | cons a l ih =>
      cases h : p a with
      | true =>
          rw [List.map_cons, List.find?_cons_of_pos _ (by rw [hf]; exact h),
            List.find?_cons_of_pos _ h, Option.map_some']
      | false =>
          rw [List.map_cons, List.find?_cons_of_neg _ (by simp [hf, h]),
            List.find?_cons_of_neg _ (by simp [h]), ih]

/-- After an update that makes every row fail the predicate (and leaves
non-matching rows alone), `find?` no longer matches anything. -/
theorem find?_map_none {α : Type} (p : α → Bool) (f : α → α)
    (hf : ∀ v, p (f v) = false) (l : List α) :
    (l.map (fun v => if p v then f v else v)).find? p = none := by
  rw [List.find?_eq_none]
  intro x hx
  rcases List.mem_map.mp hx with ⟨v, _, rfl⟩
  by_cases h : p v = true
  · simp [h, hf]
  · simp only [Bool.not_eq_true] at h
    simp [h]

/-- `find?` skips a wholly non-matching preamble. -/
theorem find?_append_none {α : Type} {p : α → Bool} {l1 : List α}
    (h : l1.find? p = none) (l2 : List α) :
    (l1 ++ l2).find? p = l2.find? p := by
  induction l1 with
  | nil => rfl
  | cons a l ih =>
      cases ha : p a with
      | true => rw [List.find?_cons_of_pos _ ha] at h; exact absurd h (by simp)
      | false =>
          rw [List.find?_cons_of_neg _ (by simp [ha])] at h
          rw [List.cons_append, List.find?_cons_of_neg _ (by simp [ha]), ih h]

/-- A filtered length is unchanged by a map that preserves the predicate. -/
theorem filter_length_map_invar {α : Type} (p : α → Bool) (f : α → α)
    (hf : ∀ v, p (f v) = p v) (l : List α) :
    ((l.map f).filter p).length = (l.filter p).length := by
  rw [← List.countP_eq_length_filter, ← List.countP_eq_length_filter,
    List.countP_map]
  exact List.countP_congr (fun a _ => by simp [Function.comp, hf])

/-- Splitting a length into the failing and non-failing parts. -/
theorem filter_not_length {α : Type} (p : α → Bool) (l : List α) :
    (l.filter (fun a => !p a)).length = l.length - (l.filter p).length := by
  induction l with
  | nil => rfl
  | cons a l ih =>
      have hle := List.length_filter_le p l
      cases h : p a with
      | true => simp [List.filter_cons, h, ih]
      | false => simp [List.filter_cons, h, ih]; omega

/-- set_user_role writes only the users table. -/
theorem set_user_role_requests (un : String) (role : UserRole) (s : DBState) :
    ((set_user_role un role s).2).requests = s.requests := rfl

/-- grant_table_access writes only the admin_table_access table. -/
theorem grant_table_access_requests (un t : String) (s : DBState) :
    (grant_table_access un t s).requests = s.requests := by
  unfold grant_table_access; split <;> rfl

/-- update_event writes only the events table. -/
theorem update_event_status_requests (eid : Nat) (st : EventStatus) (s : DBState) :
    ((update_event_status eid st s).2).requests = s.requests := by
  unfold update_event_status; split <;> rfl

/-- activate_event writes only the events table. -/
theorem activate_event_requests (eid : Nat) (s : DBState) :
    ((activate_event eid s).2).requests = s.requests :=
  update_event_status_requests eid .active s

/-- No store write of the approval side effect touches admin_requests. -/
theorem approval_steps_requests (fails : Nat → Bool) (req : AdminRequest) :
    ∀ f ∈ approval_steps fails req, ∀ t : DBState, (f t).requests = t.requests := by
  intro f hf t
  unfold approval_steps at hf
  split at hf
  · rcases List.mem_cons.mp hf with rfl | hf2
    · exact set_user_role_requests _ _ _
    · revert hf2
      split
      · intro hf2
        rcases List.mem_singleton.mp hf2 with rfl
        exact grant_table_access_requests _ _ _
      · intro hf2; exact absurd hf2 (List.not_mem_nil f)
  · split at hf
    · split at hf
      · split at hf
        · rcases List.mem_singleton.mp hf with rfl
          exact activate_event_requests _ _
        · exact absurd hf (List.not_mem_nil f)
      · exact absurd hf (List.not_mem_nil f)
    · exact absurd hf (List.not_mem_nil f)

/-- Running any prefix of steps that preserve the requests table preserves
the requests table. -/
theorem run_steps_requests (steps : List (DBState → DBState))
    (h : ∀ f ∈ steps, ∀ t : DBState, (f t).requests = t.requests) :
    ∀ (k : Nat) (s0 : DBState), (run_steps steps k s0).requests = s0.requests := by
  induction steps with
  | nil => intro k s0; simp [run_steps]
  | cons f rest ih =>
      intro k s0
      cases k with
      | zero => simp [run_steps]
      | succ k =>
          have hstep : run_steps (f :: rest) (k + 1) s0 = run_steps rest k (f s0) := by
            simp [run_steps]
          rw [hstep, ih (fun g hg t => h g (List.mem_cons_of_mem _ hg) t) k (f s0),
            h f (List.mem_cons_self _ _) s0]

/-- The fan-out loop visits every recipient in order and counts exactly the
deliveries that did not fail. -/
theorem broadcast_loop_go (fails : Nat → Bool) (ids pre : List Nat) (n : Nat) :
    ids.foldl (fun acc tid =>
        (acc.1 ++ [tid], if fails tid then acc.2 else acc.2 + 1)) (pre, n) =
      (pre ++ ids, n + (ids.filter (fun t => !fails t)).length) := by
  induction ids generalizing pre n with
  | nil => simp
  | cons a l ih =>
      cases h : fails a with
      | true => simp [h, ih, List.filter_cons]
      | false =>
          simp [h, ih, List.filter_cons]
          omega

/-- The fan-out loop, from its actual initial accumulator. -/
theorem broadcast_loop_eq (fails : Nat → Bool) (message : String)
    (ids : List Nat) :
    broadcast_loop fails message ids =
      (ids, ids.length - (ids.filter fails).length) := by
  unfold broadcast_loop
  rw [broadcast_loop_go]
  simp [filter_not_length]

/-! ## Claims -/

/-- C9: for every already-registered user, the identity upsert performed on
contact leaves the user's role and phone unchanged, always overwrites
full_name with the new value, and overwrites username only when the incoming
username is non-null (a null incoming username keeps the stored one); the
telegram identifier key is never changed. -/
theorem c9_upsert_frame (s : DBState) (tid : Nat) (un : Option String)
    (fn : String) (ph : Option String) (u : User)
    (hu : get_user tid s = some u) :
    (upsert_user tid un fn ph s).1.telegram_id = u.telegram_id ∧
    (upsert_user tid un fn ph s).1.role = u.role ∧
    (upsert_user tid un fn ph s).1.phone = u.phone ∧
    (upsert_user tid un fn ph s).1.full_name = fn ∧
    (un = none → (upsert_user tid un fn ph s).1.username = u.username) ∧
    (∀ v, un = some v → (upsert_user tid un fn ph s).1.username = some v) ∧
    get_user tid (upsert_user tid un fn ph s).2 =
      some (upsert_user tid un fn ph s).1 := by
  have hfind : s.users.find? (fun v => v.telegram_id == tid) = some u := hu
  have htid : (u.telegram_id == tid) = true := by
    have := List.find?_some hfind
    simpa using this
  have hinv : ∀ v : User,
      (((if v.telegram_id == tid then upsert_upd un fn v else v).telegram_id == tid))
        = (v.telegram_id == tid) := by
    intro v
    by_cases h : (v.telegram_id == tid) = true
    · simp [h, upsert_upd]
    · simp at h
      simp [h]
  simp only [upsert_user, hfind]
  refine ⟨rfl, rfl, rfl, rfl, ?_, ?_, ?_⟩
  · rintro rfl; rfl
  · rintro v rfl; rfl
  · show (DBState.users _).find? (fun v => v.telegram_id == tid) = _
    simp only
    rw [find?_map_invar (fun v => v.telegram_id == tid)
        (fun v => if v.telegram_id == tid then upsert_upd un fn v else v) hinv,
      hfind, Option.map_some', htid]
    simp

/-- Witness for C9 at a concrete already-registered user. -/
theorem c9_witness :
    (upsert_user 7 none "New Name" none c9S).1.role = UserRole.admin ∧
    (upsert_user 7 none "New Name" none c9S).1.phone = some "123" ∧
    (upsert_user 7 none "New Name" none c9S).1.username = some "oldhandle" ∧
    (upsert_user 7 none "New Name" none c9S).1.full_name = "New Name" := by
  have h := c9_upsert_frame c9S 7 none "New Name" none c9U (by rfl)
  exact ⟨h.2.1, h.2.2.1, h.2.2.2.2.1 rfl, h.2.2.2.1⟩

/-- C6: for every recipient list and every pattern of per-recipient delivery
failures, the broadcast fan-out attempts a send to every recipient in order
(a failure never aborts the remaining deliveries), and the reported tally is
`sent = total - failures` over `total` recipients; this holds both for the
direct /broadcast confirmation and for the broadcast branch of the approval
side effect. -/
theorem c6_broadcast_tally (fails : Nat → Bool) (text : String) (s : DBState)
    (req : AdminRequest) (htype : req.request_type = "broadcast")
    (hmsg : req.payload_json.bind Payload.message = some text)
    (hne : text ≠ "") :
    broadcast_loop fails text (get_all_telegram_ids s) =
      (get_all_telegram_ids s,
       (get_all_telegram_ids s).length -
         ((get_all_telegram_ids s).filter fails).length) ∧
    broadcast_confirm_h fails true (some text) s =
      .report ((get_all_telegram_ids s).length -
          ((get_all_telegram_ids s).filter fails).length)
        (get_all_telegram_ids s).length ∧
    apply_approval fails req s =
      (s, [.broadcastSent ((get_all_telegram_ids s).length -
            ((get_all_telegram_ids s).filter fails).length)
          (get_all_telegram_ids s).length]) := by
  refine ⟨broadcast_loop_eq fails text _, ?_, ?_⟩
  · simp [broadcast_confirm_h, broadcast_loop_eq]
  · simp [apply_approval, htype, hmsg, hne, broadcast_loop_eq]

/-- The conflict-row update preserves the conflict key. -/
theorem regConflict_upd_invar (eid tid : Nat) (fn : String)
    (ph lv cm : Option String) :
    ∀ v : EventRegistration,
      regConflict eid (some tid)
          (if regConflict eid (some tid) v then reg_upd fn ph lv cm v else v) =
        regConflict eid (some tid) v := by
  intro v
  by_cases h : regConflict eid (some tid) v = true
  · have : regConflict eid (some tid) (reg_upd fn ph lv cm v) =
        regConflict eid (some tid) v := rfl
    simp [h, this]
  · simp only [Bool.not_eq_true] at h
    simp [h]

/-- After a register_for_event call keyed by (event, some telegram id) the
store holds a conflicting row, and `find?` returns exactly the row the call
returned. -/
theorem register_creates_conflict_row (eid tid : Nat) (fn : String)
    (un ph lv cm : Option String) (s : DBState) :
    ((register_for_event eid fn un (some tid) ph lv cm s).2).registrations.find?
        (regConflict eid (some tid)) =
      some (register_for_event eid fn un (some tid) ph lv cm s).1 := by
  cases hf : s.registrations.find? (regConflict eid (some tid)) with
  | none =>
      simp only [register_for_event, hf]
      rw [find?_append_none hf]
      simp [regConflict]
  | some r =>
      have hr := List.find?_some hf
      simp only [register_for_event, hf]
      rw [find?_map_invar _ _ (regConflict_upd_invar eid tid fn ph lv cm), hf,
        Option.map_some']
      simp [hr]

/-- The conflict-row update does not change which event a row belongs to. -/
theorem reg_upd_event_invar (eid tid : Nat) (fn : String)
    (ph lv cm : Option String) :
    ∀ v : EventRegistration,
      (((if regConflict eid (some tid) v then reg_upd fn ph lv cm v else v).event_id
          == eid)) = (v.event_id == eid) := by
  intro v
  by_cases h : regConflict eid (some tid) v = true
  · simp [h, reg_upd]
  · simp only [Bool.not_eq_true] at h
    simp [h]

/-- C2: for every event and actor, registering a second time with the same
(event, actor telegram identifier) updates the existing registration row in
place — full_name, phone, level and comment are overwritten and the row id
is unchanged — rather than inserting a new row, and the registration count
for that event after the second call equals the count after the first
call. -/
theorem c2_registration_idempotent (s : DBState) (eid tid : Nat)
    (fn1 fn2 : String) (un1 un2 ph1 ph2 lv1 lv2 cm1 cm2 : Option String) :
    count_event_registrations eid
        (register_for_event eid fn2 un2 (some tid) ph2 lv2 cm2
          (register_for_event eid fn1 un1 (some tid) ph1 lv1 cm1 s).2).2 =
      count_event_registrations eid
        (register_for_event eid fn1 un1 (some tid) ph1 lv1 cm1 s).2 ∧
    ((register_for_event eid fn2 un2 (some tid) ph2 lv2 cm2
        (register_for_event eid fn1 un1 (some tid) ph1 lv1 cm1 s).2).2).registrations.length =
      ((register_for_event eid fn1 un1 (some tid) ph1 lv1 cm1 s).2).registrations.length ∧
    (register_for_event eid fn2 un2 (some tid) ph2 lv2 cm2
        (register_for_event eid fn1 un1 (some tid) ph1 lv1 cm1 s).2).1.id =
      (register_for_event eid fn1 un1 (some tid) ph1 lv1 cm1 s).1.id ∧
    (register_for_event eid fn2 un2 (some tid) ph2 lv2 cm2
        (register_for_event eid fn1 un1 (some tid) ph1 lv1 cm1 s).2).1.full_name = fn2 ∧
    (register_for_event eid fn2 un2 (some tid) ph2 lv2 cm2
        (register_for_event eid fn1 un1 (some tid) ph1 lv1 cm1 s).2).1.phone = ph2 ∧
    (register_for_event eid fn2 un2 (some tid) ph2 lv2 cm2
        (register_for_event eid fn1 un1 (some tid) ph1 lv1 cm1 s).2).1.level = lv2 ∧
    (register_for_event eid fn2 un2 (some tid) ph2 lv2 cm2
        (register_for_event eid fn1 un1 (some tid) ph1 lv1 cm1 s).2).1.comment = cm2 := by
  have hconf := register_creates_conflict_row eid tid fn1 un1 ph1 lv1 cm1 s
  set s1 := (register_for_event eid fn1 un1 (some tid) ph1 lv1 cm1 s).2 with hs1
  set r1 := (register_for_event eid fn1 un1 (some tid) ph1 lv1 cm1 s).1 with hr1
  simp only [register_for_event, hconf, count_event_registrations]
  refine ⟨?_, ?_, rfl, rfl, rfl, rfl, rfl⟩
  · exact filter_length_map_invar (fun r => r.event_id == eid) _
      (reg_upd_event_invar eid tid fn2 ph2 lv2 cm2) s1.registrations
  · simp

/-- Witness for C6: three recipients, the middle one failing. -/
theorem c6_witness :
    broadcast_confirm_h (fun t => t == 2) true (some "hi") c6S = .report 2 3 := by
  have h := c6_broadcast_tally (fun t => t == 2) "hi" c6S c6Req rfl rfl (by decide)
  exact h.2.1

/-- A row updated to a decided status never satisfies the pending guard. -/
theorem req_pending_where_upd_false (rid : Nat) (outcome : RequestStatus)
    (rev : String) (hout : outcome ≠ .pending) :
    ∀ v : AdminRequest,
      req_pending_where rid (req_decide_upd outcome rev v) = false := by
  intro v
  simp [req_pending_where, req_decide_upd, hout]

/-- Shape of a successful conditional decision update. -/
theorem decide_request_some (outcome : RequestStatus) (rid : Nat) (rev : String)
    (s : DBState) (r : AdminRequest)
    (hf : s.requests.find? (req_pending_where rid) = some r) :
    decide_request outcome rid rev s =
      (some (req_decide_upd outcome rev r),
       { s with requests := s.requests.map (fun v =>
           if req_pending_where rid v then req_decide_upd outcome rev v else v) }) := by
  unfold decide_request
  rw [hf]

/-- Shape of a failed conditional decision update: zero rows affected, the
store unchanged. -/
theorem decide_request_none (outcome : RequestStatus) (rid : Nat) (rev : String)
    (t : DBState) (h : t.requests.find? (req_pending_where rid) = none) :
    decide_request outcome rid rev t = (none, t) := by
  unfold decide_request
  rw [h]

/-- Each action's db call is the conditional update with its terminal
status. -/
theorem decision_of_eq (a : DecisionAction) (rid : Nat) (rev : String)
    (s : DBState) :
    decision_of a rid rev s = decide_request (decision_status a) rid rev s := by
  cases a <;> rfl

/-- The terminal status of a decision is never pending. -/
theorem decision_status_ne_pending (a : DecisionAction) :
    decision_status a ≠ RequestStatus.pending := by
  cases a <;> simp [decision_status]

/-- C1: a decision transition (approve or reject) succeeds and returns the
updated request only if the request's status is still pending at the moment
of the conditional update; once the request is decided, every later approve
or reject attempt on the same request id returns no record, leaves the store
(and hence the request's status) unchanged, and is reported to the reviewer
as already handled. -/
theorem c1_decision_at_most_once (a a2 : DecisionAction) (rid : Nat)
    (rev rev2 : String) (fails2 : Nat → Bool) (s : DBState) :
    ((decision_of a rid rev s).1.isSome ↔
      ∃ r ∈ s.requests, r.id = rid ∧ r.status = RequestStatus.pending) ∧
    ∀ req s1, decision_of a rid rev s = (some req, s1) →
      req.status = decision_status a ∧
      decision_of a2 rid rev2 s1 = (none, s1) ∧
      handle_request_decision fails2 a2 rid rev2 s1 =
        (DecisionReply.alreadyHandled rid, s1, []) := by
  constructor
  · rw [decision_of_eq]
    cases hf : s.requests.find? (req_pending_where rid) with
    | none =>
        rw [decide_request_none _ _ _ _ hf]
        simp only [Option.isSome_none, Bool.false_eq_true, false_iff]
        rintro ⟨r, hr, hid, hst⟩
        rw [List.find?_eq_none] at hf
        exact hf r hr (by simp [req_pending_where, hid, hst])
    | some r =>
        rw [decide_request_some _ _ _ _ _ hf]
        simp only [Option.isSome_some, true_iff]
        have hp := List.find?_some hf
        simp only [req_pending_where, Bool.and_eq_true, beq_iff_eq] at hp
        exact ⟨r, List.mem_of_find?_eq_some hf, hp.1, hp.2⟩
  · intro req s1 h
    rw [decision_of_eq] at h
    cases hf : s.requests.find? (req_pending_where rid) with
    | none =>
        rw [decide_request_none _ _ _ _ hf] at h
        simp at h
    | some r =>
        rw [decide_request_some _ _ _ _ _ hf] at h
        have h1 : req = req_decide_upd (decision_status a) rev r := by
          have := congrArg Prod.fst h
          simpa using this.symm
        have h2 : s1 = { s with requests := s.requests.map (fun v =>
            if req_pending_where rid v
            then req_decide_upd (decision_status a) rev v else v) } := by
          have := congrArg Prod.snd h
          simpa using this.symm
        subst h1 h2
        have hnone : (DBState.requests { s with requests := s.requests.map (fun v =>
            if req_pending_where rid v
            then req_decide_upd (decision_status a) rev v else v) }).find?
              (req_pending_where rid) = none :=
          find?_map_none _ _
            (req_pending_where_upd_false rid (decision_status a) rev
              (decision_status_ne_pending a)) s.requests
        have hdec2 := decide_request_none (decision_status a2) rid rev2 _ hnone
        refine ⟨rfl, by rw [decision_of_eq]; exact hdec2, ?_⟩
        simp only [handle_request_decision, decision_of_eq, hdec2]

/-- Witness for C1: a pending request approved once; the second decision
returns no record and reports "already handled". -/
theorem c1_witness :
    (decision_of .approve 5 "root" c1S).1.isSome = true ∧
    decision_of .reject 5 "other" c1PostS = (none, c1PostS) ∧
    handle_request_decision (fun _ => false) .reject 5 "other" c1PostS =
      (DecisionReply.alreadyHandled 5, c1PostS, []) := by
  have h := c1_decision_at_most_once .approve .reject 5 "root" "other"
    (fun _ => false) c1S
  have e : decision_of .approve 5 "root" c1S = (some c1ReqDone, c1PostS) := by
    decide
  have h2 := h.2 c1ReqDone c1PostS e
  exact ⟨h.1.mpr ⟨c1Req, by simp [c1S, emptyDB], rfl, rfl⟩, h2.2.1, h2.2.2⟩

/-- The decision update leaves row ids unchanged. -/
theorem req_decide_upd_id_invar (outcome : RequestStatus) (rid : Nat)
    (rev : String) :
    ∀ v : AdminRequest,
      (((if req_pending_where rid v then req_decide_upd outcome rev v else v).id
          == rid)) = (v.id == rid) := by
  intro v
  by_cases hq : req_pending_where rid v = true
  · simp [hq, req_decide_upd]
  · simp only [Bool.not_eq_true] at hq
    simp [hq]

/-- After a successful conditional decision update, reading the request back
by id gives the decided status (ids are unique: `id` is a PRIMARY KEY). -/
theorem request_status_after_decide (outcome : RequestStatus) (rid : Nat)
    (rev : String) (s : DBState) (r : AdminRequest)
    (hf : s.requests.find? (req_pending_where rid) = some r)
    (hnd : (s.requests.map AdminRequest.id).Nodup) :
    request_status rid (decide_request outcome rid rev s).2 = some outcome := by
  rw [decide_request_some _ _ _ _ _ hf]
  have hmem := List.mem_of_find?_eq_some hf
  have hp := List.find?_some hf
  simp only [req_pending_where, Bool.and_eq_true, beq_iff_eq] at hp
  have hsome : s.requests.find? (fun v => v.id == rid) = some r := by
    cases he : s.requests.find? (fun v => v.id == rid) with
    | none =>
        rw [List.find?_eq_none] at he
        exact absurd (by simp [hp.1]) (he r hmem)
    | some e =>
        have hemem := List.mem_of_find?_eq_some he
        have hpe := List.find?_some he
        simp only [beq_iff_eq] at hpe
        have her : e = r :=
          List.inj_on_of_nodup_map hnd hemem hmem (by rw [hpe, hp.1])
        rw [her]
  simp only [request_status]
  have hrw := find?_map_invar (fun v : AdminRequest => v.id == rid)
      (fun v => if req_pending_where rid v then req_decide_upd outcome rev v else v)
      (req_decide_upd_id_invar outcome rid rev) s.requests
  rw [hrw, hsome, Option.map_some', Option.map_some']
  simp [req_pending_where, hp.1, hp.2, req_decide_upd]

/-- The full side effect equals running all of its store-write steps. -/
theorem apply_approval_runs_all (fails : Nat → Bool) (req : AdminRequest)
    (t : DBState) :
    (apply_approval fails req t).1 =
      run_steps (approval_steps fails req) (approval_steps fails req).length t := by
  by_cases h1 : req.request_type = "admin_access"
  · cases hrt : req.requested_table with
    | none => simp [apply_approval, approval_steps, run_steps, h1, hrt]
    | some tb => simp [apply_approval, approval_steps, run_steps, h1, hrt]
  · by_cases h2 : req.request_type = "event_creation" ∨
        req.request_type = "event_activation"
    · cases hp : req.payload_json.bind Payload.event_id with
      | none => simp [apply_approval, approval_steps, run_steps, h1, h2, hp]
      | some eid =>
          by_cases he : eid = 0
          · simp [apply_approval, approval_steps, run_steps, h1, h2, hp, he]
          · simp [apply_approval, approval_steps, run_steps, h1, h2, hp, he]
    · by_cases h3 : req.request_type = "broadcast"
      · by_cases hm : (req.payload_json.bind Payload.message).getD "" = ""
        · simp [apply_approval, approval_steps, run_steps, h1, h2, h3, hm]
        · simp [apply_approval, approval_steps, run_steps, h1, h2, h3, hm]
      · simp [apply_approval, approval_steps, run_steps, h1, h2, h3]

/-- C10: the approval status transition is committed before the
type-specific side effect runs and is never rolled back: the state the side
effect starts from already stores the request as approved; the handler's
final state is exactly the side effect applied to that committed state; the
side effect is the run of its store-write steps, and after every prefix of
those steps (an exception mid-side-effect leaves exactly such a prefix
applied) the request still reads back as approved. -/
theorem c10_decision_committed_first (fails : Nat → Bool) (rid : Nat)
    (rev : String) (s : DBState) (req : AdminRequest) (s1 : DBState)
    (h : approve_request rid rev s = (some req, s1))
    (hnd : (s.requests.map AdminRequest.id).Nodup) :
    request_status rid s1 = some RequestStatus.approved ∧
    (handle_request_decision fails .approve rid rev s).2.1 =
      (apply_approval fails req s1).1 ∧
    (apply_approval fails req s1).1 =
      run_steps (approval_steps fails req) (approval_steps fails req).length s1 ∧
    ∀ k, request_status rid (run_steps (approval_steps fails req) k s1) =
      some RequestStatus.approved := by
  have hdec : decide_request .approved rid rev s = (some req, s1) := h
  have hst1 : request_status rid s1 = some RequestStatus.approved := by
    cases hf : s.requests.find? (req_pending_where rid) with
    | none =>
        rw [decide_request_none _ _ _ _ hf] at hdec
        simp at hdec
    | some r =>
        have := request_status_after_decide .approved rid rev s r hf hnd
        rw [hdec] at this
        exact this
  refine ⟨hst1, ?_, apply_approval_runs_all fails req s1, ?_⟩
  · have hd : decision_of .approve rid rev s = (some req, s1) := h
    simp only [handle_request_decision, hd]
  · intro k
    have hreq : (run_steps (approval_steps fails req) k s1).requests =
        s1.requests :=
      run_steps_requests _ (approval_steps_requests fails req) k s1
    simp only [request_status] at hst1 ⊢
    rw [hreq]
    exact hst1

/-- Witness for C10: approving the pending admin-access request `c1Req`;
the side effect's store writes never disturb the approved status. -/
theorem c10_witness :
    request_status 5 c1PostS = some RequestStatus.approved ∧
    request_status 5
        (run_steps (approval_steps (fun _ => false) c1ReqDone) 1 c1PostS) =
      some RequestStatus.approved := by
  have h := c10_decision_committed_first (fun _ => false) 5 "root" c1S
    c1ReqDone c1PostS (by decide) (by decide)
  exact ⟨h.1, h.2.2.2 1⟩

/-- Activating an event just appended with a fresh id updates exactly that
event and touches no other table. -/
theorem activate_append_fresh (s0 : DBState) (e : Event)
    (hfresh : ∀ x ∈ s0.events, x.id ≠ e.id) :
    ((activate_event e.id { s0 with events := s0.events ++ [e], next_event_id := s0.next_event_id + 1 }).2).events =
      s0.events ++ [{ e with status := EventStatus.active }] ∧
    ((activate_event e.id { s0 with events := s0.events ++ [e], next_event_id := s0.next_event_id + 1 }).2).requests =
      s0.requests := by
  have hnone : s0.events.find? (fun v => v.id == e.id) = none := by
    rw [List.find?_eq_none]
    intro x hx
    simp [hfresh x hx]
  have hfind : (s0.events ++ [e]).find? (fun v => v.id == e.id) = some e := by
    rw [find?_append_none hnone]
    simp
  have hmapid : s0.events.map (fun v => if v.id == e.id
      then { v with status := EventStatus.active } else v) = s0.events := by
    have h1 : ∀ a ∈ s0.events, (if a.id == e.id
        then { a with status := EventStatus.active } else a) = id a := by
      intro a ha
      simp [hfresh a ha]
    rw [List.map_congr_left h1, List.map_id]
  simp only [activate_event, update_event_status, hfind, List.map_append,
    List.map_cons, List.map_nil, hmapid]
  simp

/-- C5: confirming the manual event creation flow creates the event with
status pending; a super-admin's event is immediately transitioned to active
and no AdminRequest is created; anyone else's event stays pending and
exactly one pending AdminRequest of type event_creation whose payload
references the new event's id is appended, so no active event exists yet for
that submission. -/
theorem c5_creation_approval_split (actor : User) (d : EvtData) (s : DBState)
    (hWF : ∀ ev ∈ s.events, ev.id < s.next_event_id) :
    (actor.role = UserRole.super_admin →
      (evt_confirm_h true actor d s).2.events =
        s.events ++ [{ evt_new_event actor d s with status := EventStatus.active }] ∧
      (evt_new_event actor d s).id = s.next_event_id ∧
      (evt_confirm_h true actor d s).2.requests = s.requests) ∧
    (actor.role ≠ UserRole.super_admin →
      (evt_confirm_h true actor d s).2.events =
        s.events ++ [evt_new_event actor d s] ∧
      (evt_new_event actor d s).id = s.next_event_id ∧
      (evt_new_event actor d s).status = EventStatus.pending ∧
      (evt_confirm_h true actor d s).2.requests =
        s.requests ++ [evt_new_request actor d s] ∧
      (evt_new_request actor d s).request_type = "event_creation" ∧
      (evt_new_request actor d s).status = RequestStatus.pending ∧
      (evt_new_request actor d s).payload_json.bind Payload.event_id =
        some (evt_new_event actor d s).id) := by
  constructor
  · intro hrole
    have hconf2 : (evt_confirm_h true actor d s).2 =
        (activate_event (evt_new_event actor d s).id
          { s with events := s.events ++ [evt_new_event actor d s], next_event_id := s.next_event_id + 1 }).2 := by
      simp only [evt_confirm_h, hrole]
      rfl
    obtain ⟨he, hr⟩ := activate_append_fresh s (evt_new_event actor d s)
      (fun x hx => Nat.ne_of_lt (hWF x hx))
    exact ⟨by rw [hconf2]; exact he, rfl, by rw [hconf2]; exact hr⟩
  · intro hrole
    have hconf2 : (evt_confirm_h true actor d s).2 =
        { s with
            events := s.events ++ [evt_new_event actor d s]
            next_event_id := s.next_event_id + 1
            requests := s.requests ++ [evt_new_request actor d s]
            next_request_id := s.next_request_id + 1 } := by
      simp only [evt_confirm_h, hrole]
      simp
      rfl
    refine ⟨by rw [hconf2], rfl, rfl, by rw [hconf2], rfl, rfl, rfl⟩

/-- Witness for C5: the same submission by a super-admin and by a plain
admin over an empty store. -/
theorem c5_witness :
    (evt_confirm_h true c5Super EvtData.empty emptyDB).2.requests =
      emptyDB.requests ∧
    (evt_confirm_h true c5Admin EvtData.empty emptyDB).2.requests =
      emptyDB.requests ++ [evt_new_request c5Admin EvtData.empty emptyDB] ∧
    (evt_new_request c5Admin EvtData.empty emptyDB).status =
      RequestStatus.pending := by
  have h1 := c5_creation_approval_split c5Super EvtData.empty emptyDB
    (by intro x hx; simp [emptyDB] at hx)
  have h2 := c5_creation_approval_split c5Admin EvtData.empty emptyDB
    (by intro x hx; simp [emptyDB] at hx)
  have h2r := h2.2 (by decide)
  exact ⟨(h1.1 rfl).2.2, h2r.2.2.2.1, h2r.2.2.2.2.2.1⟩

/-- The three ask steps never touch the stored event id. -/
theorem ask_steps_preserve_event_id (t : String) (u : UserData) :
    ((ask_name t u).2).reg_event_id = u.reg_event_id ∧
    ((ask_phone t u).2).reg_event_id = u.reg_event_id ∧
    ((ask_level t u).2).reg_event_id = u.reg_event_id := by
  by_cases h : pystrip t ≠ "" ∧ pystrip t ≠ "/skip"
  · simp [ask_name, ask_phone, ask_level, h]
  · simp [ask_name, ask_phone, ask_level, h]

/-- At a full event (max_participants > 0 and count at the limit) reg_start
rejects with the capacity message, whoever the actor is. -/
theorem reg_start_full (tid eid : Nat) (ud : UserData) (s : DBState)
    (ev : Event) (hev : s.events.find? (fun e => e.id == eid) = some ev)
    (h1 : ev.max_participants > 0)
    (h2 : (count_event_registrations eid s : Int) ≥ ev.max_participants) :
    reg_start tid eid s ud =
      (RegState.ended, RegReply.capacityRejected ev.title, ud) := by
  simp only [reg_start, hev]
  rw [if_pos ⟨h1, h2⟩]

/-- When the capacity check passes, reg_start always moves to ASK_NAME with
the ask-name prompt. -/
theorem reg_start_nocap (tid eid : Nat) (ud : UserData) (s : DBState)
    (ev : Event) (hev : s.events.find? (fun e => e.id == eid) = some ev)
    (hnot : ¬(ev.max_participants > 0 ∧
      (count_event_registrations eid s : Int) ≥ ev.max_participants)) :
    (reg_start tid eid s ud).1 = RegState.askName ∧
    (reg_start tid eid s ud).2.1 = RegReply.askNamePrompt ev.title := by
  simp only [reg_start, hev]
  rw [if_neg hnot]
  cases hu : get_user tid s with
  | none => simp
  | some u =>
      by_cases hn : u.full_name ≠ ""
      · simp [hn]
      · simp [hn]

/-- The scratch fields reg_start leaves alone: phone and level always, the
stored name whenever no identity is on file, and the event id it stores
whenever it proceeds. -/
theorem reg_start_ud_fields (tid eid : Nat) (ud : UserData) (s : DBState) :
    ((reg_start tid eid s ud).2.2).reg_phone = ud.reg_phone ∧
    ((reg_start tid eid s ud).2.2).reg_level = ud.reg_level ∧
    ((reg_start tid eid s ud).1 = RegState.askName →
      ((reg_start tid eid s ud).2.2).reg_event_id = some eid) ∧
    (get_user tid s = none →
      ((reg_start tid eid s ud).2.2).reg_name = ud.reg_name) := by
  unfold reg_start
  cases hf : s.events.find? (fun e => e.id == eid) with
  | none => simp
  | some event =>
      by_cases hcap : event.max_participants > 0 ∧
          (count_event_registrations eid s : Int) ≥ event.max_participants
      · simp [hcap]
      · simp only [if_neg hcap]
        cases hu : get_user tid s with
        | none => simp
        | some u =>
            by_cases hn : u.full_name ≠ ""
            · simp [hn]
            · simp [hn]

/-- A flow whose entry point did not reach ASK_NAME ends without touching
the store. -/
theorem registration_flow_rejected (tid eid : Nat) (un : Option String)
    (fn ni pi li : String) (yes : Bool) (ud : UserData) (s : DBState)
    (h1 : (reg_start tid eid s ud).1 ≠ RegState.askName) :
    (registration_flow tid un fn eid ni pi li yes ud s).2.2 = s := by
  have hs : reg_start tid eid s ud =
      ((reg_start tid eid s ud).1, (reg_start tid eid s ud).2.1,
        (reg_start tid eid s ud).2.2) := rfl
  unfold registration_flow
  rw [hs]
  cases hst : (reg_start tid eid s ud).1 with
  | askName => exact absurd hst h1
  | askPhone => rfl
  | askLevel => rfl
  | confirm => rfl
  | ended => rfl

/-- A flow whose entry point reached ASK_NAME runs the three ask steps and
commits through reg_confirm. -/
theorem registration_flow_run (tid eid : Nat) (un : Option String)
    (fn ni pi li : String) (yes : Bool) (ud : UserData) (s : DBState)
    (h1 : (reg_start tid eid s ud).1 = RegState.askName) :
    (registration_flow tid un fn eid ni pi li yes ud s).2.2 =
      (reg_confirm yes tid un fn
        ((ask_level li ((ask_phone pi
          ((ask_name ni ((reg_start tid eid s ud).2.2)).2)).2)).2) s).2 := by
  have hs : reg_start tid eid s ud =
      (RegState.askName, (reg_start tid eid s ud).2.1,
        (reg_start tid eid s ud).2.2) := by
    rw [← h1]
  unfold registration_flow
  rw [hs]

/-- Registering against an existing conflicting row updates in place: the
event's count and the table size are unchanged. -/
theorem register_existing_count (eid tid : Nat) (fn : String)
    (un ph lv cm : Option String) (s : DBState) (r : EventRegistration)
    (hr : s.registrations.find? (regConflict eid (some tid)) = some r) :
    count_event_registrations eid
        (register_for_event eid fn un (some tid) ph lv cm s).2 =
      count_event_registrations eid s ∧
    ((register_for_event eid fn un (some tid) ph lv cm s).2).registrations.length =
      s.registrations.length := by
  simp only [register_for_event, hr, count_event_registrations]
  exact ⟨filter_length_map_invar _ _ (reg_upd_event_invar eid tid fn ph lv cm) _,
    by simp⟩

/-- C3 counterexample: the claim says an actor who already holds one of the
N registrations is still accepted on re-registration; at the full one-slot
event of `c3S` the entry capacity check rejects the existing registrant
(telegram id 10, who holds the slot) exactly like a new actor, because the
count-based check does not exempt existing registrants. -/
theorem c3_counterexample :
    (reg_start 10 1 c3S UserData.empty).2.1 = RegReply.capacityRejected "Yoga" ∧
    c3Reg ∈ c3S.registrations ∧ c3Reg.telegram_id = some 10 ∧
    c3Reg.event_id = 1 ∧ c3Event.max_participants = 1 ∧
    count_event_registrations 1 c3S = 1 := by
  refine ⟨by decide, ?_, rfl, rfl, rfl, by decide⟩
  simp [c3S, emptyDB]

/-- C3 (amended): with max_participants = N > 0 and N registrations, every
registration attempt — including by an actor who already holds one of them —
is rejected with the capacity message and the flow leaves the store
untouched; with max_participants = 0 the entry point never capacity-rejects;
and while the event is not full, an actor with an existing registration who
re-registers is accepted as an in-place update: the registration count and
the number of rows do not change. -/
theorem c3_capacity_enforcement (tid eid : Nat) (un : Option String)
    (fn ni pi li : String) (ud : UserData) (s : DBState) (ev : Event)
    (hev : s.events.find? (fun e => e.id == eid) = some ev) :
    (ev.max_participants > 0 →
      (count_event_registrations eid s : Int) ≥ ev.max_participants →
      (reg_start tid eid s ud).2.1 = RegReply.capacityRejected ev.title ∧
      (registration_flow tid un fn eid ni pi li true ud s).2.2 = s) ∧
    (ev.max_participants = 0 →
      ∀ t, (reg_start tid eid s ud).2.1 ≠ RegReply.capacityRejected t) ∧
    (¬(ev.max_participants > 0 ∧
        (count_event_registrations eid s : Int) ≥ ev.max_participants) →
      ∀ r, s.registrations.find? (regConflict eid (some tid)) = some r →
        count_event_registrations eid
            (registration_flow tid un fn eid ni pi li true ud s).2.2 =
          count_event_registrations eid s ∧
        ((registration_flow tid un fn eid ni pi li true ud s).2.2).registrations.length =
          s.registrations.length) := by
  refine ⟨?_, ?_, ?_⟩
  · intro h1 h2
    have hfull := reg_start_full tid eid ud s ev hev h1 h2
    constructor
    · rw [hfull]
    · exact registration_flow_rejected tid eid un fn ni pi li true ud s
        (by rw [hfull]; simp)
  · intro h0 t
    have hnot : ¬(ev.max_participants > 0 ∧
        (count_event_registrations eid s : Int) ≥ ev.max_participants) := by
      simp [h0]
    rw [(reg_start_nocap tid eid ud s ev hev hnot).2]
    simp
  · intro hnot r hr
    have hask := (reg_start_nocap tid eid ud s ev hev hnot).1
    rw [registration_flow_run tid eid un fn ni pi li true ud s hask]
    have hud1 := (reg_start_ud_fields tid eid ud s).2.2.1 hask
    have heid : ((ask_level li ((ask_phone pi
        ((ask_name ni ((reg_start tid eid s ud).2.2)).2)).2)).2).reg_event_id =
        some eid := by
      rw [(ask_steps_preserve_event_id li _).2.2,
        (ask_steps_preserve_event_id pi _).2.1,
        (ask_steps_preserve_event_id ni _).1, hud1]
    simp only [reg_confirm, heid]
    simp only [Option.getD_some]
    rw [if_neg (by simp)]
    exact register_existing_count eid tid _ un _ _ none s r hr

/-- Witness for C3 (amended): at the full `c3S` the existing registrant's
attempt is rejected and the store is untouched; at the two-slot `c3SRoomy`
their re-registration is accepted and neither the count nor the table size
grows. -/
theorem c3_witness :
    (reg_start 10 1 c3S UserData.empty).2.1 = RegReply.capacityRejected "Yoga" ∧
    (registration_flow 10 none "Alice" 1 "Alice" "/skip" "/skip" true
        UserData.empty c3S).2.2 = c3S ∧
    count_event_registrations 1
        (registration_flow 10 none "Alice" 1 "Alice" "/skip" "/skip" true
          UserData.empty c3SRoomy).2.2 = 1 := by
  have hfull := c3_capacity_enforcement 10 1 none "Alice" "Alice" "/skip" "/skip"
    UserData.empty c3S c3Event rfl
  have hroomy := c3_capacity_enforcement 10 1 none "Alice" "Alice" "/skip" "/skip"
    UserData.empty c3SRoomy { c3Event with max_participants := 2 } rfl
  have h1 := hfull.1 (by decide) (by decide)
  have h3 := (hroomy.2.2 (by decide) c3Reg (by decide)).1
  refine ⟨h1.1, h1.2, ?_⟩
  rw [h3]
  decide

/-- C4 counterexample: the claim says a non-integer at the max-participants
state re-prompts and stays in that state with no field stored; on the input
"abc" the code instead stores 0 into evt_max and advances the conversation
to the confirm state. -/
theorem c4_counterexample :
    evt_max_h "abc" c4Data =
      (EvtState.confirm, { c4Data with evt_max := some 0 }) ∧
    EvtState.confirm ≠ EvtState.maxPart := by
  exact ⟨by decide, by decide⟩

/-- C4 (amended): in the manual event creation flow a date input that does
not parse as a calendar date re-prompts and stays in the date state with no
field stored; a non-integer input at the max-participants state is not
re-prompted — it is coerced to 0 (as if skipped), stored, and the
conversation advances to the confirm state. -/
theorem c4_validation_behaviour (date_in max_in : String) (d d2 : EvtData)
    (hdate : date_fromisoformat (pystrip date_in) = none)
    (hskip : pystrip max_in ≠ "/skip") (hint : pyint (pystrip max_in) = none) :
    evt_date_h date_in d = (EvtState.date, d) ∧
    evt_max_h max_in d2 = (EvtState.confirm, { d2 with evt_max := some 0 }) := by
  constructor
  · simp only [evt_date_h, hdate]
  · simp only [evt_max_h, if_neg hskip, hint]

/-- Witness for C4 (amended): month 13 is not a calendar date; "abc" is not
an integer. -/
theorem c4_witness :
    evt_date_h "2025-13-01" c4Data = (EvtState.date, c4Data) ∧
    evt_max_h "abc" c4Data =
      (EvtState.confirm, { c4Data with evt_max := some 0 }) :=
  c4_validation_behaviour "2025-13-01" "abc" c4Data c4Data (by decide)
    (by decide) (by decide)

/-- C7 counterexample: the claim says the no-op on a missing payload event
reference is logged; for an approved event_creation request whose payload
carries no event reference the side effect emits no log line at all (the
store is indeed untouched and nothing is raised). -/
theorem c7_counterexample :
    apply_approval (fun _ => false) c7ReqNoRef emptyDB = (emptyDB, []) := by
  decide

/-- C7 (amended): when an event_creation or event_activation request is
approved and its payload references an existing event, that event's status
is set to active and an info line is logged; when the payload's event
reference is missing the side effect is a silent no-op — store unchanged,
nothing logged, nothing raised; when the referenced event no longer exists
the store is unchanged but the "activated" info line is still logged; in
every case the side effect returns and the approval handler completes with a
decided reply. -/
theorem c7_activation_side_effect (fails : Nat → Bool) (req : AdminRequest)
    (s : DBState)
    (htype : req.request_type = "event_creation" ∨
      req.request_type = "event_activation") :
    (req.payload_json.bind Payload.event_id = none →
      apply_approval fails req s = (s, [])) ∧
    (∀ n, req.payload_json.bind Payload.event_id = some n → n ≠ 0 →
      (s.events.find? (fun e => e.id == n) = none →
        apply_approval fails req s = (s, [LogEntry.activatedEvent n])) ∧
      (∀ e, s.events.find? (fun e2 => e2.id == n) = some e →
        apply_approval fails req s =
          ({ s with events := s.events.map (fun v =>
              if v.id == n then { v with status := EventStatus.active } else v) },
           [LogEntry.activatedEvent n]))) ∧
    (∀ rid rev s0 req2 s1, approve_request rid rev s0 = (some req2, s1) →
      (handle_request_decision fails .approve rid rev s0).1 =
        DecisionReply.decided rid req2.request_type true req2.username) := by
  have hne1 : ¬ req.request_type = "admin_access" := by
    rcases htype with h | h <;> simp [h]
  refine ⟨?_, ?_, ?_⟩
  · intro hnone
    unfold apply_approval
    rw [if_neg hne1, if_pos htype, hnone]
  · intro n hsome hn0
    constructor
    · intro hev
      unfold apply_approval
      rw [if_neg hne1, if_pos htype, hsome]
      dsimp only
      rw [if_pos hn0]
      unfold activate_event update_event_status
      rw [hev]
    · intro e hev
      unfold apply_approval
      rw [if_neg hne1, if_pos htype, hsome]
      dsimp only
      rw [if_pos hn0]
      unfold activate_event update_event_status
      rw [hev]
  · intro rid rev s0 req2 s1 h
    have hd : decision_of .approve rid rev s0 = (some req2, s1) := h
    simp only [handle_request_decision, hd]

/-- Witness for C7 (amended): a request referencing the absent event 99 is a
store no-op that still logs, and approving the no-reference request over the
store `c1S` completes with a decided reply. -/
theorem c7_witness :
    apply_approval (fun _ => false) c7ReqGone emptyDB =
      (emptyDB, [LogEntry.activatedEvent 99]) ∧
    (handle_request_decision (fun _ => false) .approve 5 "root" c1S).1 =
      DecisionReply.decided 5 "admin_access" true "alice" := by
  have h := c7_activation_side_effect (fun _ => false) c7ReqGone emptyDB
    (Or.inr rfl)
  exact ⟨(h.2.1 99 rfl (by decide)).1 rfl,
    h.2.2 5 "root" c1S c1ReqDone c1PostS (by decide)⟩

/-- C8 counterexample: the claim says a subsequent fresh start of the same
flow begins with empty collected fields; after entering the registration
flow, answering the name step with "Alice", and cancelling, the per-user
storage still holds reg_name = "Alice", and a fresh start of the same flow
(which reaches ASK_NAME) still sees it — the collected field was not
discarded. -/
theorem c8_counterexample :
    (reg_cancel (ask_name "Alice"
        (reg_start 10 1 c8S UserData.empty).2.2).2 c8S).2.1.reg_name =
      some "Alice" ∧
    ((reg_start 10 1 c8S
        (reg_cancel (ask_name "Alice"
          (reg_start 10 1 c8S UserData.empty).2.2).2 c8S).2.1).2.2).reg_name =
      some "Alice" ∧
    (reg_start 10 1 c8S
        (reg_cancel (ask_name "Alice"
          (reg_start 10 1 c8S UserData.empty).2.2).2 c8S).2.1).1 =
      RegState.askName := by
  exact ⟨by decide, by decide, by decide⟩

/-- C8 (amended): cancelling any conversation flow (the /cancel fallback or
declining at the confirm step) produces no new or modified domain records,
but the collected fields are not discarded: the cancel handlers leave the
per-user storage untouched, and a fresh start of the registration flow keeps
the leftover phone and level fields — and, when no identity is stored for
the actor, also the leftover name. -/
theorem c8_cancellation_no_mutation (ud : UserData) (d : EvtData) (s : DBState)
    (tid eid : Nat) (un : Option String) (fn : String) (actor : User)
    (bt : Option String) (fails : Nat → Bool) :
    reg_cancel ud s = (RegState.ended, ud, s) ∧
    (reg_confirm false tid un fn ud s).2 = s ∧
    evt_cancel_h d s = (EvtState.ended, d, s) ∧
    (evt_confirm_h false actor d s).2 = s ∧
    broadcast_confirm_h fails false bt s = BCReply.cancelled ∧
    ((reg_start tid eid s ud).2.2).reg_phone = ud.reg_phone ∧
    ((reg_start tid eid s ud).2.2).reg_level = ud.reg_level ∧
    (get_user tid s = none →
      ((reg_start tid eid s ud).2.2).reg_name = ud.reg_name) := by
  have hf := reg_start_ud_fields tid eid ud s
  exact ⟨rfl, rfl, rfl, rfl, rfl, hf.1, hf.2.1, hf.2.2.2⟩

/-- Witness for C8 (amended) on the concrete store `c8S`, where no identity
is registered for actor 10. -/
theorem c8_witness :
    reg_cancel UserData.empty c8S = (RegState.ended, UserData.empty, c8S) ∧
    ((reg_start 10 1 c8S UserData.empty).2.2).reg_name =
      UserData.empty.reg_name := by
  have h := c8_cancellation_no_mutation UserData.empty EvtData.empty c8S 10 1
    none "x" c5Admin none (fun _ => false)
  exact ⟨h.1, h.2.2.2.2.2.2.2 (by decide)⟩

end Solomon
